import Mathlib

/-!
# BluetoothMonitor: connection watcher and name resolver

A shallow embedding of `linux/BluetoothMonitor.cpp`.  The system bus, the
`bluetoothctl` process and the file system are collaborators: every answer
they give is a function of the calls made so far, and every call is recorded
in the state, next to the two outbound signals `deviceConnected` and
`deviceDisconnected`.
-/

namespace BluetoothMonitor

/-! ## Qt value types -/

/-- A `QString`, as its sequence of characters. -/
abbrev QString := List Char

/-- A `QStringList`. -/
abbrev QStringList := List QString

/-- The `QString` a string literal of the source converts to. -/
def QString.lit (s : String) : QString := s.toList

/-- `QString::contains(const QString &)`: case-sensitive substring test. -/
def QString.contains : QString → QString → Bool
  | [], sub => sub.isEmpty
  | c :: cs, sub => List.isPrefixOf sub (c :: cs) || QString.contains cs sub

/-- `QString::replace(":", "_")`: every occurrence of the one-character
string `before` becomes `after`. -/
def QString.replace (s : QString) (before after : Char) : QString :=
  s.map (fun c => if c = before then after else c)

/-- `QChar::isSpace`: the ASCII controls 9..13, the blank, U+0085, U+00A0 and
the Unicode separator categories Zs, Zl and Zp. -/
def QChar.isSpace (c : Char) : Bool :=
  let n := c.toNat
  n == 0x20 || (0x09 ≤ n && n ≤ 0x0d) || n == 0x85 || n == 0xa0 || n == 0x1680 ||
  (0x2000 ≤ n && n ≤ 0x200a) || n == 0x2028 || n == 0x2029 || n == 0x202f ||
  n == 0x205f || n == 0x3000

/-- `QString::trimmed`: white space removed from both ends. -/
def QString.trimmed (s : QString) : QString :=
  ((s.dropWhile QChar.isSpace).reverse.dropWhile QChar.isSpace).reverse

/-- `QStringList::contains`: case-sensitive membership. -/
def QStringList.contains (l : QStringList) (s : QString) : Bool :=
  l.elem s

/-- A `QVariant`, seen through the three conversions the monitor applies to
property values. -/
structure QVariant where
  toBool : Bool
  toString : QString
  toStringList : QStringList
  deriving DecidableEq

/-- A `QVariant` holding a `bool`. -/
def QVariant.ofBool (b : Bool) : QVariant :=
  { toBool := b, toString := if b then (QString.lit "true") else (QString.lit "false"), toStringList := [] }

/-- A `QVariant` holding a `QStringList`. -/
def QVariant.ofStringList (l : QStringList) : QVariant :=
  { toBool := false,
    toString := match l with
      | [s] => s
      | _ => [],
    toStringList := l }

/-- A default-constructed (invalid) `QVariant`. -/
def QVariant.null : QVariant :=
  { toBool := false, toString := [], toStringList := [] }

/-- A `QMap`, as its entries in iteration order. -/
abbrev QMap (κ ν : Type) := List (κ × ν)

/-- `QMap::contains`. -/
def QMap.contains {κ ν : Type} [DecidableEq κ] (m : QMap κ ν) (k : κ) : Bool :=
  m.any (fun e => decide (e.1 = k))

/-- `QMap::value` and the `const` subscript: the value stored under `k`, or
the default-constructed value. -/
def QMap.value {κ ν : Type} [DecidableEq κ] : QMap κ ν → κ → ν → ν
  | [], _, dflt => dflt
  | (k', v) :: rest, k, dflt => if k' = k then v else QMap.value rest k dflt

/-- `QVariantMap`. -/
abbrev QVariantMap := QMap QString QVariant

/-- `ManagedObjectList`, the reply of `GetManagedObjects`: object path to
interface name to property map. -/
abbrev ManagedObjectList := QMap QString (QMap QString QVariantMap)

/-! ## Regular expressions of the two name parsers -/

/-- The class `\s` of `QRegularExpression` without the Unicode-properties
option: blank, `\t`, `\n`, `\v`, `\f`, `\r`. -/
def regexSpace (c : Char) : Bool :=
  let n := c.toNat
  n == 0x20 || (0x09 ≤ n && n ≤ 0x0d)

/-- The tail `(.+)\n` of both patterns, anchored at the head of the input:
the dot takes every character up to the next line feed, at least one, and a
line feed has to follow.  The result is capture group 1. -/
def matchCaptureNewline (inp : QString) : Option QString :=
  match inp.takeWhile (fun c => c != '\n'), inp.dropWhile (fun c => c != '\n') with
  | _ :: _, _ :: _ => some (inp.takeWhile (fun c => c != '\n'))
  | _, _ => none

/-- The tail `\s*(.+)\n`, anchored: the greedy star first takes a further
white-space character and gives it back when the rest cannot match. -/
def matchSpacesCaptureNewline : QString → Option QString
  | [] => matchCaptureNewline []
  | c :: cs =>
    if regexSpace c then
      match matchSpacesCaptureNewline cs with
      | some cap => some cap
      | none => matchCaptureNewline (c :: cs)
    else matchCaptureNewline (c :: cs)

/-- The pattern `Name:\s*(.+)\n` anchored at the head of the input. -/
def matchNameColonAt (inp : QString) : Option QString :=
  if List.isPrefixOf (QString.lit "Name:") inp then matchSpacesCaptureNewline (inp.drop 5) else none

/-- The pattern `Name=(.+)\n` anchored at the head of the input. -/
def matchNameEqualsAt (inp : QString) : Option QString :=
  if List.isPrefixOf (QString.lit "Name=") inp then matchCaptureNewline (inp.drop 5) else none

/-- `QRegularExpression::match`: the match at the leftmost start offset;
the result is capture group 1 of that match. -/
def regexMatch (anchored : QString → Option QString) : QString → Option QString
  | [] => anchored []
  | c :: cs =>
    match anchored (c :: cs) with
    | some cap => some cap
    | none => regexMatch anchored cs

/-! ## Collaborators and state -/

/-- A call that leaves the monitor. -/
inductive Call where
  /-- `GetManagedObjects` on the object manager at `/`. -/
  | getManagedObjects
  /-- `org.freedesktop.DBus.Properties.Get` at `path`. -/
  | getProperty (path iface prop : QString)
  /-- `GetDevice` on `org.bluez.Adapter1` at `adapter`. -/
  | getDevice (adapter mac : QString)
  /-- `QProcess::start` followed by the bounded wait. -/
  | startProcess (program : QString) (arguments : QStringList)
  /-- A recursive `QDirIterator` over the sub-directories of `base`. -/
  | dirIterator (base : QString)
  /-- `QFile::open` for reading. -/
  | openFile (path : QString)
  deriving DecidableEq

/-- The call starts the command-line tool (tier 3). -/
def Call.isCli : Call → Bool
  | .startProcess _ _ => true
  | _ => false

/-- The call belongs to the cache scan (tier 4). -/
def Call.isCache : Call → Bool
  | .dirIterator _ => true
  | .openFile _ => true
  | _ => false

/-- The call is a `GetManagedObjects`. -/
def Call.isEnumeration : Call → Bool
  | .getManagedObjects => true
  | _ => false

/-- The collaborators.  Every answer may depend on the calls made before it
(the first argument); `none` is an error reply, respectively a file that
cannot be opened. -/
structure Env where
  /-- `QString::toLower`. -/
  toLower : QString → QString
  /-- `QDir::homePath`. -/
  homePath : QString
  /-- Reply of `GetManagedObjects`. -/
  getManagedObjects : List Call → Option ManagedObjectList
  /-- Reply of `Properties.Get` at a path, for an interface and a property. -/
  getProperty : List Call → QString → QString → QString → Option QVariant
  /-- Reply of `GetDevice` on an adapter: the object path of the device. -/
  getDevice : List Call → QString → QString → Option QString
  /-- `exitCode()` and the standard output of a process after the wait. -/
  runProcess : List Call → QString → QStringList → Int × QString
  /-- The paths a recursive directory iterator yields under a base path. -/
  subdirs : List Call → QString → List QString
  /-- The content of a file, when it can be opened. -/
  readFile : List Call → QString → Option QString

/-- The output entity: one of the two signals of the monitor. -/
inductive AccessoryEvent where
  | deviceConnected (macAddress deviceName : QString)
  | deviceDisconnected (macAddress deviceName : QString)
  deriving DecidableEq

/-- The event is a `deviceConnected`. -/
def AccessoryEvent.isConnected : AccessoryEvent → Bool
  | .deviceConnected _ _ => true
  | .deviceDisconnected _ _ => false

/-- What an operation leaves behind: the calls made and the signals emitted,
oldest first. -/
structure State where
  calls : List Call
  events : List AccessoryEvent
  deriving DecidableEq

/-- Record a call. -/
def State.call (s : State) (c : Call) : State :=
  { s with calls := s.calls ++ [c] }

/-- Emit a signal. -/
def State.emit (s : State) (e : AccessoryEvent) : State :=
  { s with events := s.events ++ [e] }

/-- The state before anything happened. -/
def State.initial : State := { calls := [], events := [] }

/-! ## The monitor -/

/-- `BluetoothMonitor::isAirPodsDevice`. -/
def isAirPodsDevice (env : Env) (s : State) (devicePath : QString) : Bool × State :=
  let s1 := s.call (.getProperty devicePath (QString.lit "org.bluez.Device1") (QString.lit "UUIDs"))
  match env.getProperty s.calls devicePath (QString.lit "org.bluez.Device1") (QString.lit "UUIDs") with
  | none => (false, s1)
  | some uuidsReply =>
    let uuids := uuidsReply.toStringList
    (QStringList.contains uuids (QString.lit "74ec2172-0bad-4d01-8f77-997b2be0722a"), s1)

/-- The loop of `getDevicePath` over `objects.keys()`: the first object path
that contains the formatted address. -/
def getDevicePathLoop (formattedMac : QString) : List QString → Option QString
  | [] => none
  | objPath :: rest =>
    if QString.contains objPath formattedMac then some objPath
    else getDevicePathLoop formattedMac rest

/-- `BluetoothMonitor::getDevicePath`. -/
def getDevicePath (env : Env) (s : State) (macAddress : QString) : QString × State :=
  let formattedMac := QString.replace (env.toLower macAddress) ':' '_'
  let s1 := s.call .getManagedObjects
  let dflt := (QString.lit "/org/bluez/hci0/dev_") ++ formattedMac
  match env.getManagedObjects s.calls with
  | some objects =>
    match getDevicePathLoop formattedMac (objects.map Prod.fst) with
    | some objPath => (objPath, s1)
    | none => (dflt, s1)
  | none => (dflt, s1)

/-- The loop of `findAdapters` over `objects.keys()`. -/
def findAdaptersLoop : List QString → QStringList → QStringList
  | [], adapters => adapters
  | objPath :: rest, adapters =>
    if QString.contains objPath (QString.lit "/org/bluez/hci") then
      findAdaptersLoop rest (adapters ++ [objPath])
    else findAdaptersLoop rest adapters

/-- `BluetoothMonitor::findAdapters`. -/
def findAdapters (env : Env) (s : State) : QStringList × State :=
  let s1 := s.call .getManagedObjects
  match env.getManagedObjects s.calls with
  | some objects => (findAdaptersLoop (objects.map Prod.fst) [], s1)
  | none => ([], s1)

/-- The loop of `getDeviceNameFromBluetooth` over the adapters. -/
def getDeviceNameFromBluetoothLoop (env : Env) (macAddress : QString) :
    QStringList → State → QString × State
  | [], s => ([], s)
  | adapter :: rest, s =>
    let s1 := s.call (.getDevice adapter macAddress)
    match env.getDevice s.calls adapter macAddress with
    | some devicePath =>
      let s2 := s1.call (.getProperty devicePath (QString.lit "org.bluez.Device1") (QString.lit "Name"))
      match env.getProperty s1.calls devicePath (QString.lit "org.bluez.Device1") (QString.lit "Name") with
      | some nameReply =>
        if !nameReply.toString.isEmpty then (nameReply.toString, s2)
        else getDeviceNameFromBluetoothLoop env macAddress rest s2
      | none => getDeviceNameFromBluetoothLoop env macAddress rest s2
    | none => getDeviceNameFromBluetoothLoop env macAddress rest s1

/-- `BluetoothMonitor::getDeviceNameFromBluetooth`. -/
def getDeviceNameFromBluetooth (env : Env) (s : State) (macAddress : QString) :
    QString × State :=
  let (adapters, s1) := findAdapters env s
  getDeviceNameFromBluetoothLoop env macAddress adapters s1

/-- `BluetoothMonitor::getDeviceNameFromBluetoothctl`. -/
def getDeviceNameFromBluetoothctl (env : Env) (s : State) (macAddress : QString) :
    QString × State :=
  let s1 := s.call (.startProcess (QString.lit "bluetoothctl") [QString.lit "info", macAddress])
  let process := env.runProcess s.calls (QString.lit "bluetoothctl") [QString.lit "info", macAddress]
  if process.1 = 0 then
    let output := process.2
    match regexMatch matchNameColonAt output with
    | some captured => (QString.trimmed captured, s1)
    | none => ([], s1)
  else ([], s1)

/-- The inner loop of `getDeviceNameFromCache` over the paths of one
directory iterator; `none` when the iterator is exhausted without a name. -/
def getDeviceNameFromCacheScan (env : Env) (formattedMac : QString) :
    List QString → State → Option QString × State
  | [], s => (none, s)
  | path :: rest, s =>
    if QString.contains path formattedMac then
      let s1 := s.call (.openFile (path ++ (QString.lit "/info")))
      match env.readFile s.calls (path ++ (QString.lit "/info")) with
      | some content =>
        match regexMatch matchNameEqualsAt content with
        | some captured => (some (QString.trimmed captured), s1)
        | none => getDeviceNameFromCacheScan env formattedMac rest s1
      | none => getDeviceNameFromCacheScan env formattedMac rest s1
    else getDeviceNameFromCacheScan env formattedMac rest s

/-- The outer loop of `getDeviceNameFromCache` over the cache locations. -/
def getDeviceNameFromCacheLoop (env : Env) (formattedMac : QString) :
    QStringList → State → QString × State
  | [], s => ([], s)
  | basePath :: rest, s =>
    let s1 := s.call (.dirIterator basePath)
    match getDeviceNameFromCacheScan env formattedMac (env.subdirs s.calls basePath) s1 with
    | (some name, s2) => (name, s2)
    | (none, s2) => getDeviceNameFromCacheLoop env formattedMac rest s2

/-- `BluetoothMonitor::getDeviceNameFromCache`. -/
def getDeviceNameFromCache (env : Env) (s : State) (macAddress : QString) :
    QString × State :=
  let cachePaths := [QString.lit "/var/lib/bluetooth", env.homePath ++ (QString.lit "/.cache/bluetooth")]
  let formattedMac := env.toLower macAddress
  getDeviceNameFromCacheLoop env formattedMac cachePaths s

/-- `BluetoothMonitor::getDeviceName`. -/
def getDeviceName (env : Env) (s : State) (macAddress : QString) : QString × State :=
  let (devicePath, s1) := getDevicePath env s macAddress
  let s2 := s1.call (.getProperty devicePath (QString.lit "org.bluez.Device1") (QString.lit "Name"))
  let nameReply := env.getProperty s1.calls devicePath (QString.lit "org.bluez.Device1") (QString.lit "Name")
  if nameReply.isSome && !(nameReply.getD QVariant.null).toString.isEmpty then
    ((nameReply.getD QVariant.null).toString, s2)
  else
    let (name, s3) := getDeviceNameFromBluetooth env s2 macAddress
    if !name.isEmpty then (name, s3)
    else
      let (name, s4) := getDeviceNameFromBluetoothctl env s3 macAddress
      if !name.isEmpty then (name, s4)
      else
        let (name, s5) := getDeviceNameFromCache env s4 macAddress
        if !name.isEmpty then (name, s5)
        else (macAddress, s5)

/-- The loop of `checkAlreadyConnectedDevices` over the managed objects;
`deviceFound` is the flag of the source. -/
def checkAlreadyConnectedDevicesLoop : ManagedObjectList → Bool → State → Bool × State
  | [], deviceFound, s => (deviceFound, s)
  | (_, interfaces) :: rest, deviceFound, s =>
    if QMap.contains interfaces (QString.lit "org.bluez.Device1") then
      let deviceProps := QMap.value interfaces (QString.lit "org.bluez.Device1") []
      if !QMap.contains deviceProps (QString.lit "UUIDs") || !QMap.contains deviceProps (QString.lit "Connected") ||
          !QMap.contains deviceProps (QString.lit "Address") || !QMap.contains deviceProps (QString.lit "Name") then
        checkAlreadyConnectedDevicesLoop rest deviceFound s
      else
        let uuids := (QMap.value deviceProps (QString.lit "UUIDs") QVariant.null).toStringList
        let isAirPods := QStringList.contains uuids (QString.lit "74ec2172-0bad-4d01-8f77-997b2be0722a")
        if isAirPods then
          let connected := (QMap.value deviceProps (QString.lit "Connected") QVariant.null).toBool
          if connected then
            let macAddress := (QMap.value deviceProps (QString.lit "Address") QVariant.null).toString
            let deviceName := (QMap.value deviceProps (QString.lit "Name") QVariant.null).toString
            checkAlreadyConnectedDevicesLoop rest true
              (s.emit (.deviceConnected macAddress deviceName))
          else checkAlreadyConnectedDevicesLoop rest deviceFound s
        else checkAlreadyConnectedDevicesLoop rest deviceFound s
    else checkAlreadyConnectedDevicesLoop rest deviceFound s

/-- `BluetoothMonitor::checkAlreadyConnectedDevices`. -/
def checkAlreadyConnectedDevices (env : Env) (s : State) : Bool × State :=
  let s1 := s.call .getManagedObjects
  match env.getManagedObjects s.calls with
  | none => (false, s1)
  | some managedObjects => checkAlreadyConnectedDevicesLoop managedObjects false s1

/-- `BluetoothMonitor::onPropertiesChanged`; `path` is the object path of the
signal, which the source reads from `QDBusContext::message()`. -/
def onPropertiesChanged (env : Env) (s : State) (interface : QString)
    (changedProps : QVariantMap) (path : QString) : State :=
  if interface ≠ (QString.lit "org.bluez.Device1") then s
  else if QMap.contains changedProps (QString.lit "Connected") then
    let connected := (QMap.value changedProps (QString.lit "Connected") QVariant.null).toBool
    let (isAirPods, s1) := isAirPodsDevice env s path
    if !isAirPods then s1
    else
      let s2 := s1.call (.getProperty path (QString.lit "org.bluez.Device1") (QString.lit "Address"))
      match env.getProperty s1.calls path (QString.lit "org.bluez.Device1") (QString.lit "Address") with
      | none => s2
      | some addrReply =>
        let macAddress := addrReply.toString
        let (deviceName, s3) := getDeviceName env s2 path
        if connected then s3.emit (.deviceConnected macAddress deviceName)
        else s3.emit (.deviceDisconnected macAddress deviceName)
  else s

/-! ## Example collaborators -/

/-- `QString::toLower` on the ASCII letters. -/
def asciiLower (s : QString) : QString := s.map Char.toLower

/-- `Properties.Get` answered from a snapshot of the object tree. -/
def treeProperty (tree : ManagedObjectList) (path iface prop : QString) : Option QVariant :=
  if QMap.contains tree path && QMap.contains (QMap.value tree path []) iface &&
      QMap.contains (QMap.value (QMap.value tree path []) iface []) prop then
    some (QMap.value (QMap.value (QMap.value tree path []) iface []) prop QVariant.null)
  else none

/-- A bus that serves one fixed tree, a command-line tool with a fixed exit
code and output, no adapter that resolves addresses and an empty cache. -/
def snapshotEnv (tree : ManagedObjectList) (cli : Int × QString) : Env :=
  { toLower := asciiLower
    homePath := QString.lit "/root"
    getManagedObjects := fun _ => some tree
    getProperty := fun _ path iface prop => treeProperty tree path iface prop
    getDevice := fun _ _ _ => none
    runProcess := fun _ _ _ => cli
    subdirs := fun _ _ => []
    readFile := fun _ _ => none }

/-- Collaborators that all fail: no bus reply, a tool that exits with 1, no
cache directory. -/
def silentEnv : Env :=
  { toLower := asciiLower
    homePath := QString.lit "/root"
    getManagedObjects := fun _ => none
    getProperty := fun _ _ _ _ => none
    getDevice := fun _ _ _ => none
    runProcess := fun _ _ _ => (1, [])
    subdirs := fun _ _ => []
    readFile := fun _ _ => none }

/-- A `QVariant` holding the string `s`, for strings that are neither empty
nor a spelling of `0` or `false`. -/
def QVariant.ofName (s : QString) : QVariant :=
  { toBool := true, toString := s, toStringList := [s] }

/-- The `org.bluez.Device1` properties of a device of the target class. -/
def airPodsProps (address name : QString) (connected : Bool) : QVariantMap :=
  [(QString.lit "Address", QVariant.ofName address),
   (QString.lit "Connected", QVariant.ofBool connected),
   (QString.lit "Name", QVariant.ofName name),
   (QString.lit "UUIDs", QVariant.ofStringList
      [QString.lit "0000110b-0000-1000-8000-00805f9b34fb",
       (QString.lit "74ec2172-0bad-4d01-8f77-997b2be0722a")])]

/-! ## Specification-side definitions and example data -/

/-- A tree with an adapter and two objects whose paths carry the lowercase
form of the address. -/
def lowerCaseTree : ManagedObjectList :=
  [(QString.lit "/org/bluez/hci0", []),
   (QString.lit "/org/bluez/hci0/dev_aa_bb_cc_dd_ee_ff", []),
   (QString.lit "/org/bluez/hci1/dev_aa_bb_cc_dd_ee_ff", [])]

/-- A tree with one adapter and one device below it. -/
def adapterAndDeviceTree : ManagedObjectList :=
  [(QString.lit "/org/bluez/hci0", [(QString.lit "org.bluez.Adapter1", [])]),
   (QString.lit "/org/bluez/hci0/dev_AA_BB_CC_DD_EE_FF",
     [(QString.lit "org.bluez.Device1",
       airPodsProps (QString.lit "AA:BB:CC:DD:EE:FF") (QString.lit "MyBuds") true)])]

/-- A record of the tree qualifies for reconciliation: it is a device, the
four properties are present, its `UUIDs` hold the target identifier and its
`Connected` is true. -/
def qualifies (entry : QString × QMap QString QVariantMap) : Bool :=
  QMap.contains entry.2 (QString.lit "org.bluez.Device1") &&
  (QMap.contains (QMap.value entry.2 (QString.lit "org.bluez.Device1") []) (QString.lit "UUIDs") &&
   QMap.contains (QMap.value entry.2 (QString.lit "org.bluez.Device1") []) (QString.lit "Connected") &&
   QMap.contains (QMap.value entry.2 (QString.lit "org.bluez.Device1") []) (QString.lit "Address") &&
   QMap.contains (QMap.value entry.2 (QString.lit "org.bluez.Device1") []) (QString.lit "Name")) &&
  decide ((QString.lit "74ec2172-0bad-4d01-8f77-997b2be0722a") ∈
    (QMap.value (QMap.value entry.2 (QString.lit "org.bluez.Device1") []) (QString.lit "UUIDs")
      QVariant.null).toStringList) &&
  (QMap.value (QMap.value entry.2 (QString.lit "org.bluez.Device1") []) (QString.lit "Connected")
      QVariant.null).toBool

/-- A device record lacks one of the four properties reconciliation needs. -/
def lacksProperty (entry : QString × QMap QString QVariantMap) : Bool :=
  !(QMap.contains (QMap.value entry.2 (QString.lit "org.bluez.Device1") []) (QString.lit "UUIDs") &&
    QMap.contains (QMap.value entry.2 (QString.lit "org.bluez.Device1") []) (QString.lit "Connected") &&
    QMap.contains (QMap.value entry.2 (QString.lit "org.bluez.Device1") []) (QString.lit "Address") &&
    QMap.contains (QMap.value entry.2 (QString.lit "org.bluez.Device1") []) (QString.lit "Name"))

/-- The notification reconciliation raises for a qualifying record: its
`Address` and its `Name` as they stand in the snapshot. -/
def connectedEventOf (entry : QString × QMap QString QVariantMap) : AccessoryEvent :=
  .deviceConnected
    (QMap.value (QMap.value entry.2 (QString.lit "org.bluez.Device1") []) (QString.lit "Address")
      QVariant.null).toString
    (QMap.value (QMap.value entry.2 (QString.lit "org.bluez.Device1") []) (QString.lit "Name")
      QVariant.null).toString

/-- A tree with an adapter and four devices of the target class: one
connected, one not connected, one connected without a `Name`, and one more
connected. -/
def reconcileTree : ManagedObjectList :=
  [(QString.lit "/org/bluez/hci0", [(QString.lit "org.bluez.Adapter1", [])]),
   (QString.lit "/org/bluez/hci0/dev_AA_BB_CC_DD_EE_01",
     [(QString.lit "org.bluez.Device1",
       airPodsProps (QString.lit "AA:BB:CC:DD:EE:01") (QString.lit "Left") true)]),
   (QString.lit "/org/bluez/hci0/dev_AA_BB_CC_DD_EE_02",
     [(QString.lit "org.bluez.Device1",
       airPodsProps (QString.lit "AA:BB:CC:DD:EE:02") (QString.lit "Idle") false)]),
   (QString.lit "/org/bluez/hci0/dev_AA_BB_CC_DD_EE_03",
     [(QString.lit "org.bluez.Device1",
       [(QString.lit "Address", QVariant.ofName (QString.lit "AA:BB:CC:DD:EE:03")),
        (QString.lit "Connected", QVariant.ofBool true),
        (QString.lit "UUIDs", QVariant.ofStringList
          [QString.lit "74ec2172-0bad-4d01-8f77-997b2be0722a"])])]),
   (QString.lit "/org/bluez/hci0/dev_AA_BB_CC_DD_EE_04",
     [(QString.lit "org.bluez.Device1",
       airPodsProps (QString.lit "AA:BB:CC:DD:EE:04") (QString.lit "Right") true)])]

/-- A tree with one connected device that advertises only the hands-free
profile. -/
def headsetTree : ManagedObjectList :=
  [(QString.lit "/org/bluez/hci0/dev_11_22_33_44_55_66",
     [(QString.lit "org.bluez.Device1",
       [(QString.lit "Address", QVariant.ofName (QString.lit "11:22:33:44:55:66")),
        (QString.lit "Connected", QVariant.ofBool true),
        (QString.lit "Name", QVariant.ofName (QString.lit "Headset")),
        (QString.lit "UUIDs", QVariant.ofStringList
          [QString.lit "0000111e-0000-1000-8000-00805f9b34fb"])])])]

/-- The state `t` continues `s`: no signal was emitted in between, and the
calls of `t` are those of `s` followed by calls that all satisfy `P`. -/
def State.Continues (P : Call → Prop) (s t : State) : Prop :=
  t.events = s.events ∧ ∃ added, t.calls = s.calls ++ added ∧ ∀ c ∈ added, P c

/-- A call of the adapter loop: `GetDevice` or a property fetch. -/
def Call.isAdapterQuery (c : Call) : Prop :=
  c.isCli = false ∧ c.isCache = false ∧ c.isEnumeration = false

/-- Tier 1, the head of `getDeviceName`: the path lookup followed by the fetch
of `Name` at that path; the name is empty when the fetch fails. -/
def directPropertyFetch (env : Env) (s : State) (macAddress : QString) : QString × State :=
  let (devicePath, s1) := getDevicePath env s macAddress
  let s2 := s1.call (.getProperty devicePath (QString.lit "org.bluez.Device1") (QString.lit "Name"))
  match env.getProperty s1.calls devicePath (QString.lit "org.bluez.Device1")
      (QString.lit "Name") with
  | some nameReply => (nameReply.toString, s2)
  | none => ([], s2)

/-- A tree whose only device sits at a lower-case path, so that the path
lookup of tier 1 finds it. -/
def lowerCaseDeviceTree : ManagedObjectList :=
  [(QString.lit "/org/bluez/hci0/dev_aa_bb_cc_dd_ee_ff",
     [(QString.lit "org.bluez.Device1",
       airPodsProps (QString.lit "AA:BB:CC:DD:EE:FF") (QString.lit "MyBuds") true)])]

/-- The lines of a text, split at the line feeds. -/
def splitLines : QString → List QString
  | [] => [[]]
  | c :: cs =>
    if c = '\n' then [] :: splitLines cs
    else
      match splitLines cs with
      | [] => [[c]]
      | l :: ls => (c :: l) :: ls

/-- The text that follows the first `Name:` of a line, when the line has one. -/
def textAfterLabel : QString → Option QString
  | [] => none
  | c :: cs =>
    if List.isPrefixOf (QString.lit "Name:") (c :: cs) then some ((c :: cs).drop 5)
    else textAfterLabel cs

/-- The name as the specification words it: on the first line that carries
the `Name:` label, the text trailing the label, trimmed; empty when no line
carries the label. -/
def labelledName (output : QString) : QString :=
  match (splitLines output).filterMap textAfterLabel with
  | [] => []
  | text :: _ => QString.trimmed text

/-! ## Substring search and path lookup -/

/-- `QString.contains` is the infix relation on character sequences. -/
theorem QString.contains_iff_infix (s sub : QString) :
    QString.contains s sub = true ↔ sub <:+: s := by
  induction s with
  | nil =>
    simp [QString.contains, List.isEmpty_iff]
  | cons c cs ih =>
    simp only [QString.contains, Bool.or_eq_true, ih, List.isPrefixOf_iff_prefix]
    rw [List.infix_cons_iff]

/-- The path loop finds nothing exactly when no path contains the address. -/
theorem getDevicePathLoop_none (norm : QString) (paths : List QString) :
    getDevicePathLoop norm paths = none ↔ ∀ q ∈ paths, ¬ norm <:+: q := by
  induction paths with
  | nil => simp [getDevicePathLoop]
  | cons p rest ih =>
    by_cases h : QString.contains p norm = true
    · simp [getDevicePathLoop, h, (QString.contains_iff_infix p norm).1 h]
    · have h' : ¬ norm <:+: p := fun hp => h ((QString.contains_iff_infix p norm).2 hp)
      simp [getDevicePathLoop, h, ih, h']

/-- The path loop returns the first path that contains the address. -/
theorem getDevicePathLoop_first (norm : QString) (pre : List QString) (p : QString)
    (post : List QString) (hp : norm <:+: p) (hpre : ∀ q ∈ pre, ¬ norm <:+: q) :
    getDevicePathLoop norm (pre ++ p :: post) = some p := by
  induction pre with
  | nil => simp [getDevicePathLoop, (QString.contains_iff_infix p norm).2 hp]
  | cons q rest ih =>
    have hq : ¬ QString.contains q norm = true :=
      fun h => hpre q (List.mem_cons_self _ _) ((QString.contains_iff_infix q norm).1 h)
    simp only [List.cons_append, getDevicePathLoop, hq, if_false]
    exact ih (fun x hx => hpre x (List.mem_cons_of_mem _ hx))

/-- The value `getDevicePath` returns when the enumeration fails. -/
theorem getDevicePath_of_error (env : Env) (s : State) (mac : QString)
    (h : env.getManagedObjects s.calls = none) :
    (getDevicePath env s mac).1 =
      (QString.lit "/org/bluez/hci0/dev_") ++ QString.replace (env.toLower mac) ':' '_' := by
  simp [getDevicePath, h]

/-- The value `getDevicePath` returns when no path of the tree matches. -/
theorem getDevicePath_of_no_match (env : Env) (s : State) (mac : QString)
    (objects : ManagedObjectList) (h : env.getManagedObjects s.calls = some objects)
    (hno : ∀ q ∈ objects.map Prod.fst, ¬ QString.replace (env.toLower mac) ':' '_' <:+: q) :
    (getDevicePath env s mac).1 =
      (QString.lit "/org/bluez/hci0/dev_") ++ QString.replace (env.toLower mac) ':' '_' := by
  have hl := (getDevicePathLoop_none _ _).2 hno
  simp only [getDevicePath, h, hl]

/-- The call `getDevicePath` records. -/
theorem getDevicePath_state (env : Env) (s : State) (mac : QString) :
    (getDevicePath env s mac).2 = s.call .getManagedObjects := by
  unfold getDevicePath
  cases env.getManagedObjects s.calls with
  | none => rfl
  | some objects =>
    simp only
    cases getDevicePathLoop (QString.replace (env.toLower mac) ':' '_')
      (List.map Prod.fst objects) <;> rfl

/-! ## C5: path lookup -/

/-- C5. `getDevicePath` searches with the address lowercased and every `:`
replaced by `_`.  When the enumeration succeeds and some path of the tree
contains that form, the first such path in tree order is returned; when no
path contains it, or the enumeration fails, the result is
`/org/bluez/hci0/dev_` followed by that form.  For `AA:BB:CC:DD:EE:FF` the
form is `aa_bb_cc_dd_ee_ff`, so the fallback is
`/org/bluez/hci0/dev_aa_bb_cc_dd_ee_ff`. -/
theorem getDevicePath_spec (env : Env) (s : State) (mac : QString) :
    (∀ objects pre p post, env.getManagedObjects s.calls = some objects →
        objects.map Prod.fst = pre ++ p :: post →
        QString.replace (env.toLower mac) ':' '_' <:+: p →
        (∀ q ∈ pre, ¬ QString.replace (env.toLower mac) ':' '_' <:+: q) →
        (getDevicePath env s mac).1 = p) ∧
    (∀ objects, env.getManagedObjects s.calls = some objects →
        (∀ q ∈ objects.map Prod.fst, ¬ QString.replace (env.toLower mac) ':' '_' <:+: q) →
        (getDevicePath env s mac).1 =
          (QString.lit "/org/bluez/hci0/dev_") ++ QString.replace (env.toLower mac) ':' '_') ∧
    (env.getManagedObjects s.calls = none →
        (getDevicePath env s mac).1 =
          (QString.lit "/org/bluez/hci0/dev_") ++ QString.replace (env.toLower mac) ':' '_') ∧
    (env.toLower (QString.lit "AA:BB:CC:DD:EE:FF") = (QString.lit "aa:bb:cc:dd:ee:ff") →
        QString.replace (env.toLower (QString.lit "AA:BB:CC:DD:EE:FF")) ':' '_'
            = (QString.lit "aa_bb_cc_dd_ee_ff") ∧
        ((∀ objects, env.getManagedObjects s.calls = some objects →
            ∀ q ∈ objects.map Prod.fst, ¬ (QString.lit "aa_bb_cc_dd_ee_ff") <:+: q) →
          (getDevicePath env s (QString.lit "AA:BB:CC:DD:EE:FF")).1
            = (QString.lit "/org/bluez/hci0/dev_aa_bb_cc_dd_ee_ff"))) := by
  refine ⟨?_, ?_, ?_, ?_⟩
  · intro objects pre p post h hsplit hp hpre
    have hl := getDevicePathLoop_first _ pre p post hp hpre
    rw [← hsplit] at hl
    simp only [getDevicePath, h, hl]
  · intro objects h hno
    exact getDevicePath_of_no_match env s mac objects h hno
  · intro h
    exact getDevicePath_of_error env s mac h
  · intro hlow
    have hnorm : QString.replace (env.toLower (QString.lit "AA:BB:CC:DD:EE:FF")) ':' '_'
        = (QString.lit "aa_bb_cc_dd_ee_ff") := by
      rw [hlow]; decide
    refine ⟨hnorm, ?_⟩
    intro hno
    cases h : env.getManagedObjects s.calls with
    | none =>
      rw [getDevicePath_of_error env s _ h, hnorm]; decide
    | some objects =>
      rw [getDevicePath_of_no_match env s _ objects h (by rw [hnorm]; exact hno objects h),
        hnorm]
      decide

/-- C5 at concrete inputs: in `lowerCaseTree` the lookup of `AA:BB:CC:DD:EE:FF`
returns the first of the two matching paths, and on a bus without reply it
returns the fallback path. -/
theorem getDevicePath_spec_witness :
    (getDevicePath (snapshotEnv lowerCaseTree (1, [])) State.initial
        (QString.lit "AA:BB:CC:DD:EE:FF")).1 = (QString.lit "/org/bluez/hci0/dev_aa_bb_cc_dd_ee_ff") ∧
    (getDevicePath silentEnv State.initial (QString.lit "AA:BB:CC:DD:EE:FF")).1
        = (QString.lit "/org/bluez/hci0/dev_aa_bb_cc_dd_ee_ff") :=
  ⟨(getDevicePath_spec (snapshotEnv lowerCaseTree (1, [])) State.initial
      (QString.lit "AA:BB:CC:DD:EE:FF")).1 lowerCaseTree [QString.lit "/org/bluez/hci0"]
      (QString.lit "/org/bluez/hci0/dev_aa_bb_cc_dd_ee_ff")
      [QString.lit "/org/bluez/hci1/dev_aa_bb_cc_dd_ee_ff"] rfl (by decide)
      (by decide) (by decide),
   ((getDevicePath_spec silentEnv State.initial []).2.2.2 (by decide)).2
      (by intro objects h; exact absurd h (by simp [silentEnv]))⟩

/-! ## C10: adapter discovery -/

/-- The adapter loop keeps exactly the paths that contain `/org/bluez/hci`. -/
theorem findAdaptersLoop_eq_filter (paths : List QString) (acc : QStringList) :
    findAdaptersLoop paths acc =
      acc ++ paths.filter (fun q => QString.contains q (QString.lit "/org/bluez/hci")) := by
  induction paths generalizing acc with
  | nil => simp [findAdaptersLoop]
  | cons q rest ih =>
    by_cases h : QString.contains q (QString.lit "/org/bluez/hci") = true
    · simp [findAdaptersLoop, h, ih]
    · simp [findAdaptersLoop, h, ih]

/-- On a successful enumeration `findAdapters` returns, in tree order, the
paths of which `/org/bluez/hci` is a substring. -/
theorem findAdapters_eq_filter (env : Env) (s : State) (objects : ManagedObjectList)
    (h : env.getManagedObjects s.calls = some objects) :
    (findAdapters env s).1 =
      (objects.map Prod.fst).filter (fun q => QString.contains q (QString.lit "/org/bluez/hci")) := by
  simp [findAdapters, h, findAdaptersLoop_eq_filter]

/-- C10. On the tree with the adapter `/org/bluez/hci0` and the device
`/org/bluez/hci0/dev_AA_BB_CC_DD_EE_FF`, `findAdapters` returns both paths:
the device path is reported as an adapter. -/
theorem findAdapters_returns_device_path :
    (findAdapters (snapshotEnv adapterAndDeviceTree (1, [])) State.initial).1 =
      [QString.lit "/org/bluez/hci0", (QString.lit "/org/bluez/hci0/dev_AA_BB_CC_DD_EE_FF")] ∧
    (QString.lit "/org/bluez/hci0/dev_AA_BB_CC_DD_EE_FF") ∈
      (findAdapters (snapshotEnv adapterAndDeviceTree (1, [])) State.initial).1 := by
  decide

/-! ## Reconciliation at start-up -/

/-- `QStringList.contains` is membership. -/
theorem QStringList.contains_iff_mem (l : QStringList) (x : QString) :
    QStringList.contains l x = true ↔ x ∈ l := by
  simp [QStringList.contains]

/-- The reconciliation loop emits one `deviceConnected` per qualifying record,
in tree order, and raises the flag when there is one. -/
theorem checkAlreadyConnectedDevicesLoop_eq (tree : ManagedObjectList) (found : Bool)
    (s : State) :
    checkAlreadyConnectedDevicesLoop tree found s =
      (found || tree.any qualifies,
        { s with events := s.events ++ (tree.filter qualifies).map connectedEventOf }) := by
  induction tree generalizing found s with
  | nil => simp [checkAlreadyConnectedDevicesLoop]
  | cons e rest ih =>
    obtain ⟨objPath, interfaces⟩ := e
    unfold checkAlreadyConnectedDevicesLoop
    by_cases h1 : QMap.contains interfaces (QString.lit "org.bluez.Device1") = true <;>
    by_cases h2 : QMap.contains (QMap.value interfaces (QString.lit "org.bluez.Device1") [])
      (QString.lit "UUIDs") = true <;>
    by_cases h3 : QMap.contains (QMap.value interfaces (QString.lit "org.bluez.Device1") [])
      (QString.lit "Connected") = true <;>
    by_cases h4 : QMap.contains (QMap.value interfaces (QString.lit "org.bluez.Device1") [])
      (QString.lit "Address") = true <;>
    by_cases h5 : QMap.contains (QMap.value interfaces (QString.lit "org.bluez.Device1") [])
      (QString.lit "Name") = true <;>
    by_cases h6 : (QMap.value (QMap.value interfaces (QString.lit "org.bluez.Device1") [])
      (QString.lit "Connected") QVariant.null).toBool = true <;>
    by_cases h7 : (QString.lit "74ec2172-0bad-4d01-8f77-997b2be0722a") ∈
      (QMap.value (QMap.value interfaces (QString.lit "org.bluez.Device1") [])
        (QString.lit "UUIDs") QVariant.null).toStringList <;>
    simp [h1, h2, h3, h4, h5, h6, h7, ih, qualifies, connectedEventOf, State.emit,
      QStringList.contains_iff_mem]

/-! ## C3: reconciliation -/

/-- C3. When the enumeration returns a tree, `checkAlreadyConnectedDevices`
emits one `deviceConnected` per qualifying record (a device with the four
properties present, the target identifier in `UUIDs` and `Connected` true), in
tree order and with the record's own `Address` and `Name`; with `K` the number
of qualifying records it emits exactly `K` notifications, all of them
`deviceConnected`, and returns true iff `0 < K`.  A record that lacks one of
the four properties is not among the records that are notified. -/
theorem checkAlreadyConnectedDevices_spec (env : Env) (s : State)
    (tree : ManagedObjectList) (h : env.getManagedObjects s.calls = some tree) :
    (checkAlreadyConnectedDevices env s).2.events =
        s.events ++ (tree.filter qualifies).map connectedEventOf ∧
    (checkAlreadyConnectedDevices env s).2.events.length =
        s.events.length + tree.countP qualifies ∧
    (∀ e ∈ (tree.filter qualifies).map connectedEventOf, e.isConnected = true) ∧
    ((checkAlreadyConnectedDevices env s).1 = true ↔ 0 < tree.countP qualifies) ∧
    (∀ e ∈ tree, lacksProperty e = true → e ∉ tree.filter qualifies) ∧
    ((∀ e ∈ tree, lacksProperty e = true) →
        (checkAlreadyConnectedDevices env s).2.events = s.events ∧
        (checkAlreadyConnectedDevices env s).1 = false) := by
  have hrun : checkAlreadyConnectedDevices env s =
      (tree.any qualifies, { s.call .getManagedObjects with
        events := s.events ++ (tree.filter qualifies).map connectedEventOf }) := by
    simp [checkAlreadyConnectedDevices, h, checkAlreadyConnectedDevicesLoop_eq, State.call]
  have hlack : ∀ e, lacksProperty e = true → qualifies e = false := by
    intro e he
    simp only [lacksProperty, Bool.not_eq_true', Bool.not_eq_true] at he
    simp [qualifies, he]
  refine ⟨by rw [hrun], ?_, ?_, ?_, ?_, ?_⟩
  · rw [hrun]; simp [List.countP_eq_length_filter]
  · intro e he
    obtain ⟨x, _, rfl⟩ := List.mem_map.1 he
    rfl
  · rw [hrun]
    simp [List.countP_pos_iff]
  · intro e _ hl hmem
    have := (List.mem_filter.1 hmem).2
    rw [hlack e hl] at this
    exact Bool.noConfusion this
  · intro hall
    have hnone : tree.filter qualifies = [] := by
      apply List.filter_eq_nil_iff.2
      intro e he
      simp [hlack e (hall e he)]
    have hany : tree.any qualifies = false := by
      rw [List.any_eq_false]
      intro e he
      simp [hlack e (hall e he)]
    rw [hrun]
    simp [hnone, hany]

/-- C3 on `reconcileTree`: two of the four devices qualify, two
`deviceConnected` are emitted and the result is true. -/
theorem checkAlreadyConnectedDevices_spec_witness :
    (checkAlreadyConnectedDevices (snapshotEnv reconcileTree (1, [])) State.initial).2.events =
      [.deviceConnected (QString.lit "AA:BB:CC:DD:EE:01") (QString.lit "Left"),
       .deviceConnected (QString.lit "AA:BB:CC:DD:EE:04") (QString.lit "Right")] ∧
    reconcileTree.countP qualifies = 2 ∧
    (checkAlreadyConnectedDevices (snapshotEnv reconcileTree (1, [])) State.initial).1 = true :=
  ⟨(checkAlreadyConnectedDevices_spec (snapshotEnv reconcileTree (1, [])) State.initial
      reconcileTree rfl).1.trans (by decide),
   by decide,
   (checkAlreadyConnectedDevices_spec (snapshotEnv reconcileTree (1, [])) State.initial
      reconcileTree rfl).2.2.2.1.2 (by decide)⟩

/-- The path-based classifier is true iff the fetch of `UUIDs` succeeds and
the list fetched holds the target identifier. -/
theorem classifier_lemma (env : Env) (s : State) (path : QString) :
    (isAirPodsDevice env s path).1 = true ↔
      ∃ v, env.getProperty s.calls path (QString.lit "org.bluez.Device1")
            (QString.lit "UUIDs") = some v ∧
        (QString.lit "74ec2172-0bad-4d01-8f77-997b2be0722a") ∈ v.toStringList := by
  unfold isAirPodsDevice
  cases hreply : env.getProperty s.calls path (QString.lit "org.bluez.Device1")
      (QString.lit "UUIDs") with
  | none => simp
  | some v => simp [QStringList.contains_iff_mem]

/-! ## C9: the classifier -/

/-- C9. For every list `S` of identifiers the membership test of the
classifier holds iff `74ec2172-0bad-4d01-8f77-997b2be0722a` is an element of
`S`.  `isAirPodsDevice` is true iff the fetch of `UUIDs` at the path succeeds
and the list it returns holds that identifier, and it is false when the fetch
fails.  `checkAlreadyConnectedDevices`, on a tree of one device that has the
four properties and is connected, returns true iff the `UUIDs` of the device
hold the same identifier. -/
theorem classifier_spec (env : Env) (s : State) :
    (∀ S : QStringList,
        QStringList.contains S (QString.lit "74ec2172-0bad-4d01-8f77-997b2be0722a") = true ↔
          (QString.lit "74ec2172-0bad-4d01-8f77-997b2be0722a") ∈ S) ∧
    (∀ path, (isAirPodsDevice env s path).1 = true ↔
        ∃ v, env.getProperty s.calls path (QString.lit "org.bluez.Device1")
              (QString.lit "UUIDs") = some v ∧
          (QString.lit "74ec2172-0bad-4d01-8f77-997b2be0722a") ∈ v.toStringList) ∧
    (∀ path, env.getProperty s.calls path (QString.lit "org.bluez.Device1")
          (QString.lit "UUIDs") = none →
        (isAirPodsDevice env s path).1 = false) ∧
    (∀ (objPath : QString) (props : QVariantMap),
        env.getManagedObjects s.calls =
          some [(objPath, [(QString.lit "org.bluez.Device1", props)])] →
        QMap.contains props (QString.lit "UUIDs") = true →
        QMap.contains props (QString.lit "Connected") = true →
        QMap.contains props (QString.lit "Address") = true →
        QMap.contains props (QString.lit "Name") = true →
        (QMap.value props (QString.lit "Connected") QVariant.null).toBool = true →
        ((checkAlreadyConnectedDevices env s).1 = true ↔
          (QString.lit "74ec2172-0bad-4d01-8f77-997b2be0722a") ∈
            (QMap.value props (QString.lit "UUIDs") QVariant.null).toStringList)) := by
  refine ⟨fun S => QStringList.contains_iff_mem S _, ?_, ?_, ?_⟩
  · intro path
    exact classifier_lemma env s path
  · intro path hfail
    simp [isAirPodsDevice, hfail]
  · intro objPath props htree hU hC hA hN hconn
    have hdev : QMap.contains [(QString.lit "org.bluez.Device1", props)]
        (QString.lit "org.bluez.Device1") = true := by
      simp [QMap.contains]
    have hval : QMap.value [(QString.lit "org.bluez.Device1", props)]
        (QString.lit "org.bluez.Device1") [] = props := by
      simp [QMap.value]
    simp [checkAlreadyConnectedDevices, htree, checkAlreadyConnectedDevicesLoop_eq,
      qualifies, hdev, hval, hU, hC, hA, hN, hconn]

/-- C9 at concrete inputs: the device of `adapterAndDeviceTree` is classified
as the target accessory by its path, and the device of `headsetTree` is not
reported by reconciliation. -/
theorem classifier_spec_witness :
    (isAirPodsDevice (snapshotEnv adapterAndDeviceTree (1, [])) State.initial
        (QString.lit "/org/bluez/hci0/dev_AA_BB_CC_DD_EE_FF")).1 = true ∧
    ¬ (checkAlreadyConnectedDevices (snapshotEnv headsetTree (1, [])) State.initial).1 = true :=
  ⟨((classifier_spec (snapshotEnv adapterAndDeviceTree (1, [])) State.initial).2.1
      (QString.lit "/org/bluez/hci0/dev_AA_BB_CC_DD_EE_FF")).2
      ⟨QVariant.ofStringList
        [QString.lit "0000110b-0000-1000-8000-00805f9b34fb",
         (QString.lit "74ec2172-0bad-4d01-8f77-997b2be0722a")], by decide, by decide⟩,
   fun hres =>
    absurd (((classifier_spec (snapshotEnv headsetTree (1, [])) State.initial).2.2.2
      (QString.lit "/org/bluez/hci0/dev_11_22_33_44_55_66") _ rfl (by decide) (by decide)
      (by decide) (by decide) (by decide)).1 hres) (by decide)⟩

/-! ## What each tier of the resolver leaves in the state -/

/-- Every state continues itself. -/
theorem State.Continues.refl (P : Call → Prop) (s : State) : State.Continues P s s :=
  ⟨rfl, [], by simp, by simp⟩

/-- Continuation composes. -/
theorem State.Continues.trans {P : Call → Prop} {s t u : State}
    (h₁ : State.Continues P s t) (h₂ : State.Continues P t u) : State.Continues P s u := by
  obtain ⟨he₁, a₁, hc₁, hp₁⟩ := h₁
  obtain ⟨he₂, a₂, hc₂, hp₂⟩ := h₂
  refine ⟨he₂.trans he₁, a₁ ++ a₂, by rw [hc₂, hc₁, List.append_assoc], ?_⟩
  intro c hc
  rcases List.mem_append.1 hc with h | h
  · exact hp₁ c h
  · exact hp₂ c h

/-- Recording one call of the class continues the state. -/
theorem State.Continues.call {P : Call → Prop} (s : State) (c : Call) (hc : P c) :
    State.Continues P s (s.call c) :=
  ⟨rfl, [c], rfl, by simpa using hc⟩

/-- Continuation by a class is continuation by every larger class. -/
theorem State.Continues.mono {P Q : Call → Prop} {s t : State} (hPQ : ∀ c, P c → Q c)
    (h : State.Continues P s t) : State.Continues Q s t := by
  obtain ⟨he, a, hc, hp⟩ := h
  exact ⟨he, a, hc, fun c hm => hPQ c (hp c hm)⟩

/-- Calls outside a class do not change the count of that class. -/
theorem State.Continues.countP_eq {P : Call → Prop} {s t : State} (p : Call → Bool)
    (h : State.Continues P s t) (hp : ∀ c, P c → p c = false) :
    t.calls.countP p = s.calls.countP p := by
  obtain ⟨_, a, hc, hall⟩ := h
  have hz : a.countP p = 0 := by
    rw [List.countP_eq_zero]
    intro c hm
    simp [hp c (hall c hm)]
  rw [hc, List.countP_append, hz, Nat.add_zero]

/-- Counting after one recorded call. -/
theorem State.countP_call (p : Call → Bool) (s : State) (c : Call) :
    (s.call c).calls.countP p = s.calls.countP p + (if p c = true then 1 else 0) := by
  simp [State.call, List.countP_append, List.countP_cons]

/-- The state `isAirPodsDevice` leaves: one property fetch. -/
theorem isAirPodsDevice_state (env : Env) (s : State) (path : QString) :
    (isAirPodsDevice env s path).2 =
      s.call (.getProperty path (QString.lit "org.bluez.Device1") (QString.lit "UUIDs")) := by
  unfold isAirPodsDevice
  cases env.getProperty s.calls path (QString.lit "org.bluez.Device1") (QString.lit "UUIDs")
    <;> rfl

/-- The state `findAdapters` leaves: one enumeration. -/
theorem findAdapters_state (env : Env) (s : State) :
    (findAdapters env s).2 = s.call .getManagedObjects := by
  unfold findAdapters
  cases env.getManagedObjects s.calls <;> rfl

/-- The adapter loop only asks adapters and fetches properties. -/
theorem getDeviceNameFromBluetoothLoop_continues (env : Env) (mac : QString)
    (adapters : QStringList) (s : State) :
    State.Continues Call.isAdapterQuery s
      (getDeviceNameFromBluetoothLoop env mac adapters s).2 := by
  induction adapters generalizing s with
  | nil => exact State.Continues.refl _ s
  | cons adapter rest ih =>
    have h1 : State.Continues Call.isAdapterQuery s (s.call (.getDevice adapter mac)) :=
      State.Continues.call s _ ⟨rfl, rfl, rfl⟩
    unfold getDeviceNameFromBluetoothLoop
    cases env.getDevice s.calls adapter mac with
    | none => exact h1.trans (ih _)
    | some devicePath =>
      have h2 : State.Continues Call.isAdapterQuery s
          ((s.call (.getDevice adapter mac)).call
            (.getProperty devicePath (QString.lit "org.bluez.Device1") (QString.lit "Name"))) :=
        h1.trans (State.Continues.call _ _ ⟨rfl, rfl, rfl⟩)
      simp only
      cases env.getProperty (s.call (.getDevice adapter mac)).calls devicePath
          (QString.lit "org.bluez.Device1") (QString.lit "Name") with
      | none => exact h2.trans (ih _)
      | some nameReply =>
        simp only
        split
        · exact h2
        · exact h2.trans (ih _)

/-- Tier 2 records one enumeration and then only adapter queries. -/
theorem getDeviceNameFromBluetooth_continues (env : Env) (s : State) (mac : QString) :
    State.Continues Call.isAdapterQuery (s.call .getManagedObjects)
      (getDeviceNameFromBluetooth env s mac).2 := by
  unfold getDeviceNameFromBluetooth
  have hs := findAdapters_state env s
  rcases hfa : findAdapters env s with ⟨adapters, s1⟩
  rw [hfa] at hs
  simp only at hs ⊢
  rw [← hs]
  exact getDeviceNameFromBluetoothLoop_continues env mac adapters s1

/-- The state tier 3 leaves: one start of `bluetoothctl info` with the address. -/
theorem getDeviceNameFromBluetoothctl_state (env : Env) (s : State) (mac : QString) :
    (getDeviceNameFromBluetoothctl env s mac).2 =
      s.call (.startProcess (QString.lit "bluetoothctl") [QString.lit "info", mac]) := by
  unfold getDeviceNameFromBluetoothctl
  simp only
  split
  · split <;> rfl
  · rfl

/-- The scan of one cache directory only opens files. -/
theorem getDeviceNameFromCacheScan_continues (env : Env) (formattedMac : QString)
    (paths : List QString) (s : State) :
    State.Continues (fun c => c.isCache = true) s
      (getDeviceNameFromCacheScan env formattedMac paths s).2 := by
  induction paths generalizing s with
  | nil => exact State.Continues.refl _ s
  | cons path rest ih =>
    unfold getDeviceNameFromCacheScan
    split
    · have h1 : State.Continues (fun c => c.isCache = true) s
          (s.call (.openFile (path ++ (QString.lit "/info")))) :=
        State.Continues.call s _ rfl
      simp only
      cases env.readFile s.calls (path ++ (QString.lit "/info")) with
      | none => exact h1.trans (ih _)
      | some content =>
        simp only
        cases regexMatch matchNameEqualsAt content with
        | none => exact h1.trans (ih _)
        | some captured => exact h1
    · exact ih s

/-- The loop over the cache locations only iterates directories and opens
files. -/
theorem getDeviceNameFromCacheLoop_continues (env : Env) (formattedMac : QString)
    (bases : QStringList) (s : State) :
    State.Continues (fun c => c.isCache = true) s
      (getDeviceNameFromCacheLoop env formattedMac bases s).2 := by
  induction bases generalizing s with
  | nil => exact State.Continues.refl _ s
  | cons basePath rest ih =>
    have h1 : State.Continues (fun c => c.isCache = true) s (s.call (.dirIterator basePath)) :=
      State.Continues.call s _ rfl
    have h2 := getDeviceNameFromCacheScan_continues env formattedMac
      (env.subdirs s.calls basePath) (s.call (.dirIterator basePath))
    unfold getDeviceNameFromCacheLoop
    simp only
    split
    · next name s2 heq =>
      rw [heq] at h2
      exact h1.trans h2
    · next s2 heq =>
      rw [heq] at h2
      exact (h1.trans h2).trans (ih _)

/-- Tier 4 starts with the iterator over `/var/lib/bluetooth` and then only
iterates directories and opens files. -/
theorem getDeviceNameFromCache_continues (env : Env) (s : State) (mac : QString) :
    State.Continues (fun c => c.isCache = true)
      (s.call (.dirIterator (QString.lit "/var/lib/bluetooth")))
      (getDeviceNameFromCache env s mac).2 := by
  have h2 := getDeviceNameFromCacheScan_continues env (env.toLower mac)
    (env.subdirs s.calls (QString.lit "/var/lib/bluetooth"))
    (s.call (.dirIterator (QString.lit "/var/lib/bluetooth")))
  unfold getDeviceNameFromCache
  simp only
  unfold getDeviceNameFromCacheLoop
  simp only
  split
  · next name s2 heq =>
    rw [heq] at h2
    exact h2
  · next s2 heq =>
    rw [heq] at h2
    exact h2.trans (getDeviceNameFromCacheLoop_continues env _ _ _)

/-! ## The four tiers of `getDeviceName` -/

/-- The state tier 1 leaves: one enumeration and one fetch of `Name`. -/
theorem directPropertyFetch_state (env : Env) (s : State) (mac : QString) :
    (directPropertyFetch env s mac).2 =
      (s.call .getManagedObjects).call
        (.getProperty (getDevicePath env s mac).1 (QString.lit "org.bluez.Device1")
          (QString.lit "Name")) := by
  unfold directPropertyFetch
  simp only [getDevicePath_state]
  split <;> rfl

/-- `getDeviceName` as the chain of its tiers: each tier runs in the state the
tier before it left, and the first non-empty name is the result. -/
theorem getDeviceName_eq_chain (env : Env) (s : State) (mac : QString) :
    getDeviceName env s mac =
      if (directPropertyFetch env s mac).1 ≠ [] then directPropertyFetch env s mac
      else if (getDeviceNameFromBluetooth env (directPropertyFetch env s mac).2 mac).1 ≠ [] then
        getDeviceNameFromBluetooth env (directPropertyFetch env s mac).2 mac
      else if (getDeviceNameFromBluetoothctl env
          (getDeviceNameFromBluetooth env (directPropertyFetch env s mac).2 mac).2 mac).1 ≠ [] then
        getDeviceNameFromBluetoothctl env
          (getDeviceNameFromBluetooth env (directPropertyFetch env s mac).2 mac).2 mac
      else if (getDeviceNameFromCache env (getDeviceNameFromBluetoothctl env
          (getDeviceNameFromBluetooth env (directPropertyFetch env s mac).2 mac).2 mac).2 mac).1
            ≠ [] then
        getDeviceNameFromCache env (getDeviceNameFromBluetoothctl env
          (getDeviceNameFromBluetooth env (directPropertyFetch env s mac).2 mac).2 mac).2 mac
      else
        (mac, (getDeviceNameFromCache env (getDeviceNameFromBluetoothctl env
          (getDeviceNameFromBluetooth env (directPropertyFetch env s mac).2 mac).2 mac).2 mac).2) := by
  unfold getDeviceName directPropertyFetch
  simp only [getDevicePath_state]
  cases env.getProperty (s.call Call.getManagedObjects).calls (getDevicePath env s mac).1
      (QString.lit "org.bluez.Device1") (QString.lit "Name") with
  | none => simp [List.isEmpty_iff]
  | some v =>
    by_cases hv : v.toString = []
    · simp [List.isEmpty_iff, hv]
    · simp [List.isEmpty_iff, hv]

/-- The calls of tier 1, spelled out. -/
theorem directPropertyFetch_calls (env : Env) (s : State) (mac : QString) :
    (directPropertyFetch env s mac).2.calls =
      s.calls ++ [.getManagedObjects,
        .getProperty (getDevicePath env s mac).1 (QString.lit "org.bluez.Device1")
          (QString.lit "Name")] := by
  rw [directPropertyFetch_state]
  simp [State.call]

/-- Tier 1 emits no signal. -/
theorem directPropertyFetch_events (env : Env) (s : State) (mac : QString) :
    (directPropertyFetch env s mac).2.events = s.events := by
  rw [directPropertyFetch_state]
  rfl

/-- Tier 1 leaves the count of every class of calls unchanged that holds
neither the enumeration nor a property fetch. -/
theorem directPropertyFetch_countP (env : Env) (s : State) (mac : QString) (p : Call → Bool)
    (h₁ : p .getManagedObjects = false) (h₂ : ∀ a b c, p (.getProperty a b c) = false) :
    (directPropertyFetch env s mac).2.calls.countP p = s.calls.countP p := by
  rw [directPropertyFetch_calls]
  simp [List.countP_append, List.countP_cons, h₁, h₂]

/-- Tier 2 leaves the count of the command-line calls unchanged. -/
theorem getDeviceNameFromBluetooth_countP_isCli (env : Env) (s : State) (mac : QString) :
    (getDeviceNameFromBluetooth env s mac).2.calls.countP Call.isCli =
      s.calls.countP Call.isCli := by
  rw [(getDeviceNameFromBluetooth_continues env s mac).countP_eq Call.isCli (fun c hc => hc.1),
    State.countP_call]
  rfl

/-- Tier 2 leaves the count of the cache calls unchanged. -/
theorem getDeviceNameFromBluetooth_countP_isCache (env : Env) (s : State) (mac : QString) :
    (getDeviceNameFromBluetooth env s mac).2.calls.countP Call.isCache =
      s.calls.countP Call.isCache := by
  rw [(getDeviceNameFromBluetooth_continues env s mac).countP_eq Call.isCache
    (fun c hc => hc.2.1), State.countP_call]
  rfl

/-- Tier 2 adds exactly one enumeration. -/
theorem getDeviceNameFromBluetooth_countP_isEnumeration (env : Env) (s : State)
    (mac : QString) :
    (getDeviceNameFromBluetooth env s mac).2.calls.countP Call.isEnumeration =
      s.calls.countP Call.isEnumeration + 1 := by
  rw [(getDeviceNameFromBluetooth_continues env s mac).countP_eq Call.isEnumeration
    (fun c hc => hc.2.2), State.countP_call]
  rfl

/-- Tier 4 adds at least one cache call. -/
theorem getDeviceNameFromCache_countP_isCache (env : Env) (s : State) (mac : QString) :
    s.calls.countP Call.isCache < (getDeviceNameFromCache env s mac).2.calls.countP Call.isCache := by
  obtain ⟨_, added, hc, _⟩ := getDeviceNameFromCache_continues env s mac
  rw [hc, List.countP_append, State.countP_call]
  simp [Call.isCache]
  omega

/-! ## C2: order of the tiers -/

/-- C2. With `t1` the direct property fetch, `t2` the adapter query run in the
state `t1` left, `t3` the command-line tool run after `t2` and `t4` the cache
scan run after `t3`: `getDeviceName` returns the name and the state of the
first of `t1`, `t2`, `t3`, `t4` whose name is not empty (and the address with
the state of `t4` when all four are empty).  When `t1` is not empty the calls
made are exactly the enumeration and the fetch of `Name`, so no later tier
ran; when `t2` is the first hit no command-line and no cache call was added;
when `t3` is the first hit no cache call was added.  A tier that does run
leaves its mark: `t2` adds one enumeration, `t3` one process start, `t4` at
least one cache call. -/
theorem getDeviceName_tier_order (env : Env) (s : State) (mac : QString) :
    let t1 := directPropertyFetch env s mac
    let t2 := getDeviceNameFromBluetooth env t1.2 mac
    let t3 := getDeviceNameFromBluetoothctl env t2.2 mac
    let t4 := getDeviceNameFromCache env t3.2 mac
    (t1.1 ≠ [] → getDeviceName env s mac = t1) ∧
    (t1.1 = [] → t2.1 ≠ [] → getDeviceName env s mac = t2) ∧
    (t1.1 = [] → t2.1 = [] → t3.1 ≠ [] → getDeviceName env s mac = t3) ∧
    (t1.1 = [] → t2.1 = [] → t3.1 = [] → t4.1 ≠ [] → getDeviceName env s mac = t4) ∧
    (t1.1 = [] → t2.1 = [] → t3.1 = [] → t4.1 = [] →
      getDeviceName env s mac = (mac, t4.2)) ∧
    (t1.1 ≠ [] → (getDeviceName env s mac).2.calls =
      s.calls ++ [.getManagedObjects,
        .getProperty (getDevicePath env s mac).1 (QString.lit "org.bluez.Device1")
          (QString.lit "Name")]) ∧
    (t1.1 = [] → t2.1 ≠ [] →
      (getDeviceName env s mac).2.calls.countP Call.isCli = s.calls.countP Call.isCli ∧
      (getDeviceName env s mac).2.calls.countP Call.isCache = s.calls.countP Call.isCache) ∧
    (t1.1 = [] → t2.1 = [] → t3.1 ≠ [] →
      (getDeviceName env s mac).2.calls.countP Call.isCache = s.calls.countP Call.isCache) ∧
    t2.2.calls.countP Call.isEnumeration = t1.2.calls.countP Call.isEnumeration + 1 ∧
    t3.2.calls.countP Call.isCli = t2.2.calls.countP Call.isCli + 1 ∧
    t3.2.calls.countP Call.isCache < t4.2.calls.countP Call.isCache := by
  intro t1 t2 t3 t4
  have hchain := getDeviceName_eq_chain env s mac
  have r1 : t1.1 ≠ [] → getDeviceName env s mac = t1 := by
    intro h1
    rw [hchain, if_pos h1]
  have r2 : t1.1 = [] → t2.1 ≠ [] → getDeviceName env s mac = t2 := by
    intro h1 h2
    rw [hchain, if_neg (not_not.2 h1), if_pos h2]
  have r3 : t1.1 = [] → t2.1 = [] → t3.1 ≠ [] → getDeviceName env s mac = t3 := by
    intro h1 h2 h3
    rw [hchain, if_neg (not_not.2 h1), if_neg (not_not.2 h2), if_pos h3]
  have c1cli : t1.2.calls.countP Call.isCli = s.calls.countP Call.isCli :=
    directPropertyFetch_countP env s mac _ rfl (fun _ _ _ => rfl)
  have c1cache : t1.2.calls.countP Call.isCache = s.calls.countP Call.isCache :=
    directPropertyFetch_countP env s mac _ rfl (fun _ _ _ => rfl)
  have c2cli : t2.2.calls.countP Call.isCli = s.calls.countP Call.isCli :=
    (getDeviceNameFromBluetooth_countP_isCli env t1.2 mac).trans c1cli
  have c2cache : t2.2.calls.countP Call.isCache = s.calls.countP Call.isCache :=
    (getDeviceNameFromBluetooth_countP_isCache env t1.2 mac).trans c1cache
  have c3 : ∀ p : Call → Bool, t3.2.calls.countP p = t2.2.calls.countP p +
      (if p (.startProcess (QString.lit "bluetoothctl") [QString.lit "info", mac]) = true
        then 1 else 0) := by
    intro p
    show (getDeviceNameFromBluetoothctl env t2.2 mac).2.calls.countP p = _
    rw [getDeviceNameFromBluetoothctl_state, State.countP_call]
  refine ⟨r1, r2, r3, ?_, ?_, ?_, ?_, ?_, ?_, ?_, ?_⟩
  · intro h1 h2 h3 h4
    rw [hchain, if_neg (not_not.2 h1), if_neg (not_not.2 h2), if_neg (not_not.2 h3), if_pos h4]
  · intro h1 h2 h3 h4
    rw [hchain, if_neg (not_not.2 h1), if_neg (not_not.2 h2), if_neg (not_not.2 h3),
      if_neg (not_not.2 h4)]
  · intro h1
    rw [r1 h1]
    exact directPropertyFetch_calls env s mac
  · intro h1 h2
    rw [r2 h1 h2]
    exact ⟨c2cli, c2cache⟩
  · intro h1 h2 h3
    rw [r3 h1 h2 h3, c3 Call.isCache, c2cache]
    rfl
  · exact getDeviceNameFromBluetooth_countP_isEnumeration env t1.2 mac
  · rw [c3 Call.isCli]
    rfl
  · exact getDeviceNameFromCache_countP_isCache env t3.2 mac

/-- C2 at concrete inputs.  When tier 1 finds `MyBuds`, that is the result and
the only calls are the enumeration and the fetch of `Name`.  On an empty tree
with a tool that prints `Name: Studio Buds`, tier 3 gives the result
`Studio Buds` and no cache call is made. -/
theorem getDeviceName_tier_order_witness :
    getDeviceName (snapshotEnv lowerCaseDeviceTree (1, [])) State.initial
        (QString.lit "AA:BB:CC:DD:EE:FF") =
      (QString.lit "MyBuds",
        { calls := [.getManagedObjects,
            .getProperty (QString.lit "/org/bluez/hci0/dev_aa_bb_cc_dd_ee_ff")
              (QString.lit "org.bluez.Device1") (QString.lit "Name")],
          events := [] }) ∧
    (getDeviceName (snapshotEnv [] (0, (QString.lit "Name: Studio Buds\n"))) State.initial
        (QString.lit "AA:BB:CC:DD:EE:FF")).1 = (QString.lit "Studio Buds") ∧
    (getDeviceName (snapshotEnv [] (0, (QString.lit "Name: Studio Buds\n"))) State.initial
        (QString.lit "AA:BB:CC:DD:EE:FF")).2.calls.countP Call.isCache = 0 :=
  ⟨((getDeviceName_tier_order (snapshotEnv lowerCaseDeviceTree (1, [])) State.initial
      (QString.lit "AA:BB:CC:DD:EE:FF")).1 (by decide)).trans (by decide),
   (congrArg Prod.fst ((getDeviceName_tier_order
      (snapshotEnv [] (0, (QString.lit "Name: Studio Buds\n"))) State.initial
      (QString.lit "AA:BB:CC:DD:EE:FF")).2.2.1 (by decide) (by decide) (by decide))).trans
      (by decide),
   ((getDeviceName_tier_order
      (snapshotEnv [] (0, (QString.lit "Name: Studio Buds\n"))) State.initial
      (QString.lit "AA:BB:CC:DD:EE:FF")).2.2.2.2.2.2.2.1 (by decide) (by decide)
      (by decide)).trans (by decide)⟩

/-! ## C1: the resolver always answers -/

/-- C1 fails as stated: with the empty string as address and collaborators
that all fail, `getDeviceName` returns the empty string. -/
theorem getDeviceName_empty_counterexample :
    (getDeviceName silentEnv State.initial []).1 = [] ∧
    ¬ (∀ (env : Env) (s : State) (mac : QString), (getDeviceName env s mac).1 ≠ []) :=
  ⟨by decide, fun h => h silentEnv State.initial [] (by decide)⟩

/-- C1, amended.  For every environment and state, `getDeviceName` returns a
non-empty string for every non-empty input (malformed or not), and returns
the input itself when all four tiers yield the empty string. -/
theorem getDeviceName_total (env : Env) (s : State) (mac : QString) :
    (mac ≠ [] → (getDeviceName env s mac).1 ≠ []) ∧
    ((directPropertyFetch env s mac).1 = [] →
      (getDeviceNameFromBluetooth env (directPropertyFetch env s mac).2 mac).1 = [] →
      (getDeviceNameFromBluetoothctl env
        (getDeviceNameFromBluetooth env (directPropertyFetch env s mac).2 mac).2 mac).1 = [] →
      (getDeviceNameFromCache env (getDeviceNameFromBluetoothctl env
        (getDeviceNameFromBluetooth env (directPropertyFetch env s mac).2 mac).2 mac).2 mac).1
          = [] →
      (getDeviceName env s mac).1 = mac) := by
  have hchain := getDeviceName_eq_chain env s mac
  constructor
  · intro hmac
    rw [hchain]
    split
    · assumption
    · split
      · assumption
      · split
        · assumption
        · split
          · assumption
          · exact hmac
  · intro h1 h2 h3 h4
    rw [hchain, if_neg (not_not.2 h1), if_neg (not_not.2 h2), if_neg (not_not.2 h3),
      if_neg (not_not.2 h4)]

/-- C1, amended, at concrete inputs: with collaborators that all fail, the
malformed address `not-an-address` is returned as it is. -/
theorem getDeviceName_total_witness :
    (getDeviceName silentEnv State.initial (QString.lit "not-an-address")).1 ≠ [] ∧
    (getDeviceName silentEnv State.initial (QString.lit "not-an-address")).1 =
      (QString.lit "not-an-address") :=
  ⟨(getDeviceName_total silentEnv State.initial (QString.lit "not-an-address")).1 (by decide),
   (getDeviceName_total silentEnv State.initial (QString.lit "not-an-address")).2
      (by decide) (by decide) (by decide) (by decide)⟩

/-! ## The signal handler -/

/-- Name resolution emits no signal. -/
theorem getDeviceName_events (env : Env) (s : State) (mac : QString) :
    (getDeviceName env s mac).2.events = s.events := by
  have e1 := directPropertyFetch_events env s mac
  have e2 : (getDeviceNameFromBluetooth env (directPropertyFetch env s mac).2 mac).2.events
      = s.events := by
    rw [(getDeviceNameFromBluetooth_continues env _ mac).1]
    exact e1
  have e3 : (getDeviceNameFromBluetoothctl env
      (getDeviceNameFromBluetooth env (directPropertyFetch env s mac).2 mac).2 mac).2.events
      = s.events := by
    rw [getDeviceNameFromBluetoothctl_state]
    exact e2
  have e4 : (getDeviceNameFromCache env (getDeviceNameFromBluetoothctl env
      (getDeviceNameFromBluetooth env (directPropertyFetch env s mac).2 mac).2 mac).2 mac).2.events
      = s.events := by
    rw [(getDeviceNameFromCache_continues env _ mac).1]
    exact e3
  rw [getDeviceName_eq_chain]
  split
  · exact e1
  · split
    · exact e2
    · split
      · exact e3
      · split
        · exact e4
        · exact e4

/-- The handler on a signal that passes the three filters: the interface is
the device interface, `Connected` is among the changed properties and the
sender path is classified as the target accessory. -/
theorem onPropertiesChanged_of_target (env : Env) (s : State) (changedProps : QVariantMap)
    (path : QString)
    (hkey : QMap.contains changedProps (QString.lit "Connected") = true)
    (hcls : (isAirPodsDevice env s path).1 = true) :
    onPropertiesChanged env s (QString.lit "org.bluez.Device1") changedProps path =
      match env.getProperty (isAirPodsDevice env s path).2.calls path
          (QString.lit "org.bluez.Device1") (QString.lit "Address") with
      | none => (isAirPodsDevice env s path).2.call
          (.getProperty path (QString.lit "org.bluez.Device1") (QString.lit "Address"))
      | some addrReply =>
        if (QMap.value changedProps (QString.lit "Connected") QVariant.null).toBool = true then
          (getDeviceName env ((isAirPodsDevice env s path).2.call
            (.getProperty path (QString.lit "org.bluez.Device1") (QString.lit "Address")))
            path).2.emit (.deviceConnected addrReply.toString
              (getDeviceName env ((isAirPodsDevice env s path).2.call
                (.getProperty path (QString.lit "org.bluez.Device1") (QString.lit "Address")))
                path).1)
        else
          (getDeviceName env ((isAirPodsDevice env s path).2.call
            (.getProperty path (QString.lit "org.bluez.Device1") (QString.lit "Address")))
            path).2.emit (.deviceDisconnected addrReply.toString
              (getDeviceName env ((isAirPodsDevice env s path).2.call
                (.getProperty path (QString.lit "org.bluez.Device1") (QString.lit "Address")))
                path).1) := by
  unfold onPropertiesChanged
  rcases hap : isAirPodsDevice env s path with ⟨isAirPods, s1⟩
  rw [hap] at hcls
  simp only at hcls
  subst hcls
  simp only [hkey, ne_eq, not_true_eq_false, if_false, if_true, Bool.not_true]
  cases env.getProperty s1.calls path (QString.lit "org.bluez.Device1")
      (QString.lit "Address") with
  | none => simp
  | some addrReply => simp

/-! ## C4: signals that are filtered out -/

/-- C4. `onPropertiesChanged` emits nothing when the interface is not
`org.bluez.Device1`, or when `Connected` is not among the changed properties,
or when the fetch of `UUIDs` at the sender path fails or returns a list
without the target identifier, whatever the rest of the payload and the
answers of the collaborators are. -/
theorem onPropertiesChanged_filtered (env : Env) (s : State) (interface : QString)
    (changedProps : QVariantMap) (path : QString)
    (h : interface ≠ (QString.lit "org.bluez.Device1") ∨
      QMap.contains changedProps (QString.lit "Connected") = false ∨
      (∀ v, env.getProperty s.calls path (QString.lit "org.bluez.Device1")
          (QString.lit "UUIDs") = some v →
        (QString.lit "74ec2172-0bad-4d01-8f77-997b2be0722a") ∉ v.toStringList)) :
    (onPropertiesChanged env s interface changedProps path).events = s.events := by
  unfold onPropertiesChanged
  by_cases hi : interface = (QString.lit "org.bluez.Device1")
  · by_cases hk : QMap.contains changedProps (QString.lit "Connected") = true
    · have hu : ∀ v, env.getProperty s.calls path (QString.lit "org.bluez.Device1")
          (QString.lit "UUIDs") = some v →
          (QString.lit "74ec2172-0bad-4d01-8f77-997b2be0722a") ∉ v.toStringList := by
        rcases h with h | h | h
        · exact absurd hi h
        · rw [hk] at h; exact Bool.noConfusion h
        · exact h
      have hcls : (isAirPodsDevice env s path).1 = false := by
        cases hc : (isAirPodsDevice env s path).1 with
        | false => rfl
        | true =>
          obtain ⟨v, hv, hmem⟩ := ((classifier_lemma env s path).1 hc)
          exact absurd hmem (hu v hv)
      have hst := isAirPodsDevice_state env s path
      rcases hap : isAirPodsDevice env s path with ⟨isAirPods, s1⟩
      rw [hap] at hcls hst
      simp only at hcls hst
      subst hcls
      subst hst
      simp [hi, hk, State.call]
    · simp [hi, hk]
  · simp [hi]

/-- C4 at concrete inputs: a signal on `org.other.Thing1`, a device signal
without `Connected`, and a `Connected` signal from the headset of
`headsetTree` each leave the list of emitted signals empty. -/
theorem onPropertiesChanged_filtered_witness :
    (onPropertiesChanged (snapshotEnv adapterAndDeviceTree (1, [])) State.initial
        (QString.lit "org.other.Thing1") [(QString.lit "Connected", QVariant.ofBool true)]
        (QString.lit "/org/bluez/hci0/dev_AA_BB_CC_DD_EE_FF")).events = [] ∧
    (onPropertiesChanged (snapshotEnv adapterAndDeviceTree (1, [])) State.initial
        (QString.lit "org.bluez.Device1") [(QString.lit "RSSI", QVariant.ofName
          (QString.lit "-60"))]
        (QString.lit "/org/bluez/hci0/dev_AA_BB_CC_DD_EE_FF")).events = [] ∧
    (onPropertiesChanged (snapshotEnv headsetTree (1, [])) State.initial
        (QString.lit "org.bluez.Device1") [(QString.lit "Connected", QVariant.ofBool true)]
        (QString.lit "/org/bluez/hci0/dev_11_22_33_44_55_66")).events = [] :=
  ⟨onPropertiesChanged_filtered _ _ _ _ _ (Or.inl (by decide)),
   onPropertiesChanged_filtered _ _ _ _ _ (Or.inr (Or.inl (by decide))),
   onPropertiesChanged_filtered (snapshotEnv headsetTree (1, [])) State.initial _ _
     (QString.lit "/org/bluez/hci0/dev_11_22_33_44_55_66")
     (Or.inr (Or.inr (fun v hv => by
       have hv' : v = QVariant.ofStringList
           [QString.lit "0000111e-0000-1000-8000-00805f9b34fb"] :=
         (Option.some.inj hv).symm
       rw [hv']
       decide)))⟩

/-! ## C7: the notification of a qualifying signal -/

/-- C7. For a device-interface signal with a `Connected` key whose sender path
is classified as the target accessory: when the fetch of `Address` fails
nothing is emitted; otherwise exactly one signal is emitted, carrying the
fetched address and the name `getDeviceName` resolves for the sender path,
and it is `deviceConnected` when the new value of `Connected` is true and
`deviceDisconnected` when it is false. -/
theorem onPropertiesChanged_notifies (env : Env) (s : State) (changedProps : QVariantMap)
    (path : QString)
    (hkey : QMap.contains changedProps (QString.lit "Connected") = true)
    (hcls : (isAirPodsDevice env s path).1 = true) :
    (env.getProperty (isAirPodsDevice env s path).2.calls path
        (QString.lit "org.bluez.Device1") (QString.lit "Address") = none →
      (onPropertiesChanged env s (QString.lit "org.bluez.Device1") changedProps path).events
        = s.events) ∧
    (∀ addrReply, env.getProperty (isAirPodsDevice env s path).2.calls path
        (QString.lit "org.bluez.Device1") (QString.lit "Address") = some addrReply →
      ((QMap.value changedProps (QString.lit "Connected") QVariant.null).toBool = true →
        (onPropertiesChanged env s (QString.lit "org.bluez.Device1") changedProps path).events
          = s.events ++ [.deviceConnected addrReply.toString
              (getDeviceName env ((isAirPodsDevice env s path).2.call
                (.getProperty path (QString.lit "org.bluez.Device1") (QString.lit "Address")))
                path).1]) ∧
      ((QMap.value changedProps (QString.lit "Connected") QVariant.null).toBool = false →
        (onPropertiesChanged env s (QString.lit "org.bluez.Device1") changedProps path).events
          = s.events ++ [.deviceDisconnected addrReply.toString
              (getDeviceName env ((isAirPodsDevice env s path).2.call
                (.getProperty path (QString.lit "org.bluez.Device1") (QString.lit "Address")))
                path).1])) := by
  have hrun := onPropertiesChanged_of_target env s changedProps path hkey hcls
  have hev : ((isAirPodsDevice env s path).2.call
      (.getProperty path (QString.lit "org.bluez.Device1") (QString.lit "Address"))).events
        = s.events := by
    rw [isAirPodsDevice_state]; rfl
  constructor
  · intro hfail
    rw [hrun, hfail]
    exact hev
  · intro addrReply hok
    constructor
    · intro hc
      rw [hrun, hok]
      simp only [hc, if_true, State.emit, getDeviceName_events, hev]
    · intro hc
      rw [hrun, hok]
      simp only [hc, State.emit, getDeviceName_events, hev]
      rfl

/-- C7 at concrete inputs: the device of `lowerCaseDeviceTree` reports
`Connected` false, and one `deviceDisconnected` with its address and its name
is emitted. -/
theorem onPropertiesChanged_notifies_witness :
    (onPropertiesChanged (snapshotEnv lowerCaseDeviceTree (1, [])) State.initial
        (QString.lit "org.bluez.Device1") [(QString.lit "Connected", QVariant.ofBool false)]
        (QString.lit "/org/bluez/hci0/dev_aa_bb_cc_dd_ee_ff")).events =
      [.deviceDisconnected (QString.lit "AA:BB:CC:DD:EE:FF") (QString.lit "MyBuds")] :=
  ((((onPropertiesChanged_notifies (snapshotEnv lowerCaseDeviceTree (1, [])) State.initial
      [(QString.lit "Connected", QVariant.ofBool false)]
      (QString.lit "/org/bluez/hci0/dev_aa_bb_cc_dd_ee_ff") (by decide) (by decide)).2
      (QVariant.ofName (QString.lit "AA:BB:CC:DD:EE:FF")) (by decide)).2 (by decide)).trans
      (by decide))

/-! ## C6: the end-to-end scenario -/

/-- C6. The scenario on `adapterAndDeviceTree`: the device sits at
`/org/bluez/hci0/dev_AA_BB_CC_DD_EE_FF`, its `UUIDs` hold the target
identifier, its `Address` is `AA:BB:CC:DD:EE:FF` and the fetch of `Name` at its
path returns `MyBuds`.  On the signal `Connected = true` from that path the
handler hands the object path to `getDeviceName`: the name is fetched at
`/org/bluez/hci0/dev_` followed by the lowercased path, where nothing lives,
every later tier runs with the path in place of the address, and the one
signal emitted carries the object path as the name. -/
theorem onPropertiesChanged_resolves_path_not_address :
    (snapshotEnv adapterAndDeviceTree (1, [])).getProperty []
        (QString.lit "/org/bluez/hci0/dev_AA_BB_CC_DD_EE_FF")
        (QString.lit "org.bluez.Device1") (QString.lit "Name")
      = some (QVariant.ofName (QString.lit "MyBuds")) ∧
    onPropertiesChanged (snapshotEnv adapterAndDeviceTree (1, [])) State.initial
        (QString.lit "org.bluez.Device1") [(QString.lit "Connected", QVariant.ofBool true)]
        (QString.lit "/org/bluez/hci0/dev_AA_BB_CC_DD_EE_FF") =
      { calls :=
          [.getProperty (QString.lit "/org/bluez/hci0/dev_AA_BB_CC_DD_EE_FF")
              (QString.lit "org.bluez.Device1") (QString.lit "UUIDs"),
           .getProperty (QString.lit "/org/bluez/hci0/dev_AA_BB_CC_DD_EE_FF")
              (QString.lit "org.bluez.Device1") (QString.lit "Address"),
           .getManagedObjects,
           .getProperty
              (QString.lit "/org/bluez/hci0/dev_/org/bluez/hci0/dev_aa_bb_cc_dd_ee_ff")
              (QString.lit "org.bluez.Device1") (QString.lit "Name"),
           .getManagedObjects,
           .getDevice (QString.lit "/org/bluez/hci0")
              (QString.lit "/org/bluez/hci0/dev_AA_BB_CC_DD_EE_FF"),
           .getDevice (QString.lit "/org/bluez/hci0/dev_AA_BB_CC_DD_EE_FF")
              (QString.lit "/org/bluez/hci0/dev_AA_BB_CC_DD_EE_FF"),
           .startProcess (QString.lit "bluetoothctl")
              [QString.lit "info", (QString.lit "/org/bluez/hci0/dev_AA_BB_CC_DD_EE_FF")],
           .dirIterator (QString.lit "/var/lib/bluetooth"),
           .dirIterator (QString.lit "/root/.cache/bluetooth")],
        events :=
          [.deviceConnected (QString.lit "AA:BB:CC:DD:EE:FF")
            (QString.lit "/org/bluez/hci0/dev_AA_BB_CC_DD_EE_FF")] } := by
  decide

/-! ## C8: the command-line tier -/

/-- Tier 3 yields the empty name when the tool exits with a non-zero code. -/
theorem getDeviceNameFromBluetoothctl_of_failure (env : Env) (s : State) (mac : QString)
    (h : (env.runProcess s.calls (QString.lit "bluetoothctl") [QString.lit "info", mac]).1
      ≠ 0) :
    (getDeviceNameFromBluetoothctl env s mac).1 = [] := by
  simp [getDeviceNameFromBluetoothctl, h]

/-- The pattern `Name:\s*(.+)\n` finds nothing in a text without `Name:`. -/
theorem regexMatch_matchNameColonAt_eq_none (output : QString)
    (h : ¬ (QString.lit "Name:") <:+: output) :
    regexMatch matchNameColonAt output = none := by
  induction output with
  | nil =>
    have hp : ¬ List.isPrefixOf (QString.lit "Name:") [] = true := by decide
    simp [regexMatch, matchNameColonAt, hp]
  | cons c cs ih =>
    have hp : ¬ List.isPrefixOf (QString.lit "Name:") (c :: cs) = true := by
      intro hpre
      exact h (List.IsPrefix.isInfix (List.isPrefixOf_iff_prefix.1 hpre))
    have hcs : ¬ (QString.lit "Name:") <:+: cs := fun hi =>
      h (hi.trans (List.suffix_cons c cs).isInfix)
    simp [regexMatch, matchNameColonAt, hp, ih hcs]

/-- Tier 3 yields the empty name when the output has no `Name:` label. -/
theorem getDeviceNameFromBluetoothctl_of_no_label (env : Env) (s : State) (mac : QString)
    (h : ¬ (QString.lit "Name:") <:+:
      (env.runProcess s.calls (QString.lit "bluetoothctl") [QString.lit "info", mac]).2) :
    (getDeviceNameFromBluetoothctl env s mac).1 = [] := by
  unfold getDeviceNameFromBluetoothctl
  simp only [regexMatch_matchNameColonAt_eq_none _ h]
  split <;> rfl

/-- The tail `(.+)\n` captures a line that is not empty up to its line feed. -/
theorem matchCaptureNewline_of_line (c : Char) (text post : QString)
    (hc : c ≠ '\n') (htext : '\n' ∉ text) :
    matchCaptureNewline (c :: text ++ '\n' :: post) = some (c :: text) := by
  have hall : ∀ a ∈ c :: text, (a != '\n') = true := by
    intro a ha
    rcases List.mem_cons.1 ha with h | h
    · simp [h, hc]
    · have : a ≠ '\n' := fun e => htext (e ▸ h)
      simp [this]
  have ht : (c :: text ++ '\n' :: post).takeWhile (fun a => a != '\n') = c :: text := by
    rw [List.takeWhile_append_of_pos hall]
    simp
  have hd : (c :: text ++ '\n' :: post).dropWhile (fun a => a != '\n') = '\n' :: post := by
    rw [List.dropWhile_append_of_pos hall]
    simp
  unfold matchCaptureNewline
  rw [ht, hd]

/-- The tail `\s*(.+)\n` skips white space, line feeds included, and captures
the text that starts at the first character that is no white space, up to
the line feed that ends it. -/
theorem matchSpacesCaptureNewline_of_line (ws : QString) (c : Char) (text post : QString)
    (hws : ∀ w ∈ ws, regexSpace w = true) (hc : regexSpace c = false) (htext : '\n' ∉ text) :
    matchSpacesCaptureNewline (ws ++ c :: text ++ '\n' :: post) = some (c :: text) := by
  have hcn : c ≠ '\n' := by
    intro e
    rw [e] at hc
    exact absurd hc (by decide)
  induction ws with
  | nil =>
    simp only [List.nil_append]
    show matchSpacesCaptureNewline (c :: (text ++ '\n' :: post)) = _
    unfold matchSpacesCaptureNewline
    simp only [hc, Bool.false_eq_true, if_false]
    exact matchCaptureNewline_of_line c text post hcn htext
  | cons w rest ih =>
    have hw := hws w (List.mem_cons_self _ _)
    have ih' := ih (fun x hx => hws x (List.mem_cons_of_mem _ hx))
    show matchSpacesCaptureNewline (w :: (rest ++ c :: text ++ '\n' :: post)) = _
    unfold matchSpacesCaptureNewline
    simp only [hw, if_true]
    simp only [List.append_assoc] at ih' ⊢
    rw [ih']

/-- The search for `Name:\s*(.+)\n` skips everything before the first `Name:`. -/
theorem regexMatch_matchNameColonAt_of_first_label (pre rest : QString)
    (hpre : ¬ (QString.lit "Name:") <:+: pre ++ (QString.lit "Name")) :
    regexMatch matchNameColonAt (pre ++ (QString.lit "Name:") ++ rest) =
      regexMatch matchNameColonAt ((QString.lit "Name:") ++ rest) := by
  induction pre with
  | nil => rfl
  | cons p ps ih =>
    have hps : ¬ (QString.lit "Name:") <:+: ps ++ (QString.lit "Name") := fun hi =>
      hpre (hi.trans (List.suffix_cons p _).isInfix)
    have hno : ¬ List.isPrefixOf (QString.lit "Name:")
        (p :: ps ++ (QString.lit "Name:") ++ rest) = true := by
      intro hp
      have hp' := List.isPrefixOf_iff_prefix.1 hp
      apply hpre
      have e1 : p :: ps ++ (QString.lit "Name:") ++ rest =
          (p :: ps ++ (QString.lit "Name")) ++ (':' :: rest) := by
        simp [QString.lit, String.toList]
      rw [e1] at hp'
      have hlen : (QString.lit "Name:").length ≤ (p :: ps ++ (QString.lit "Name")).length := by
        simp [QString.lit, String.toList]
      exact (List.prefix_of_prefix_length_le hp' (List.prefix_append _ _) hlen).isInfix
    show regexMatch matchNameColonAt (p :: (ps ++ (QString.lit "Name:") ++ rest)) = _
    unfold regexMatch
    have hm : matchNameColonAt (p :: (ps ++ (QString.lit "Name:") ++ rest)) = none := by
      unfold matchNameColonAt
      rw [if_neg]
      simpa using hno
    rw [hm]
    exact ih hps

/-- Tier 3 on a successful run whose output has, after its first `Name:`,
white space, a text without line feed that starts with a character that is
no white space, and a line feed: the result is that text, trimmed. -/
theorem getDeviceNameFromBluetoothctl_of_label_line (env : Env) (s : State) (mac : QString)
    (pre ws text post : QString) (c : Char)
    (hexit : (env.runProcess s.calls (QString.lit "bluetoothctl")
      [QString.lit "info", mac]).1 = 0)
    (hout : (env.runProcess s.calls (QString.lit "bluetoothctl") [QString.lit "info", mac]).2 =
      pre ++ (QString.lit "Name:") ++ (ws ++ c :: text ++ '\n' :: post))
    (hpre : ¬ (QString.lit "Name:") <:+: pre ++ (QString.lit "Name"))
    (hws : ∀ w ∈ ws, regexSpace w = true) (hc : regexSpace c = false)
    (htext : '\n' ∉ text) :
    (getDeviceNameFromBluetoothctl env s mac).1 = QString.trimmed (c :: text) := by
  have hm : regexMatch matchNameColonAt
      (pre ++ (QString.lit "Name:") ++ (ws ++ c :: text ++ '\n' :: post)) = some (c :: text) := by
    rw [regexMatch_matchNameColonAt_of_first_label pre _ hpre]
    show regexMatch matchNameColonAt ('N' :: ('a' :: 'm' :: 'e' :: ':' ::
      (ws ++ c :: text ++ '\n' :: post))) = _
    unfold regexMatch
    have hat : matchNameColonAt ('N' :: ('a' :: 'm' :: 'e' :: ':' ::
        (ws ++ c :: text ++ '\n' :: post))) = some (c :: text) := by
      unfold matchNameColonAt
      rw [if_pos (by simp [QString.lit, String.toList])]
      exact matchSpacesCaptureNewline_of_line ws c text post hws hc htext
    rw [hat]
  unfold getDeviceNameFromBluetoothctl
  simp only [hexit, hout, hm, if_true]

/-- C8. The tool exits with 0 and prints a device whose `Name:` line has
nothing but a blank after the label, followed by an `Alias:` line.  The text
trailing the label on the `Name:` line, trimmed, is empty, but tier 3 returns
the text of the next line, `Alias: AA-BB-CC-DD-EE-FF`.  On the output
`Name: Studio Buds` with its line feed it returns `Studio Buds`, and without
the final line feed it returns the empty string. -/
theorem getDeviceNameFromBluetoothctl_reads_next_line :
    (getDeviceNameFromBluetoothctl
      (snapshotEnv [] (0, (QString.lit
        "Device AA:BB:CC:DD:EE:FF (public)\n\tName: \n\tAlias: AA-BB-CC-DD-EE-FF\n")))
      State.initial (QString.lit "AA:BB:CC:DD:EE:FF")).1
        = (QString.lit "Alias: AA-BB-CC-DD-EE-FF") ∧
    labelledName (QString.lit
        "Device AA:BB:CC:DD:EE:FF (public)\n\tName: \n\tAlias: AA-BB-CC-DD-EE-FF\n") = [] ∧
    (getDeviceNameFromBluetoothctl
      (snapshotEnv [] (0, (QString.lit "Name: Studio Buds\n")))
      State.initial (QString.lit "AA:BB:CC:DD:EE:FF")).1 = (QString.lit "Studio Buds") ∧
    (getDeviceNameFromBluetoothctl
      (snapshotEnv [] (0, (QString.lit "Name: Studio Buds")))
      State.initial (QString.lit "AA:BB:CC:DD:EE:FF")).1 = [] ∧
    labelledName (QString.lit "Name: Studio Buds") = (QString.lit "Studio Buds") := by
  decide

end BluetoothMonitor
